import Mathlib

/-!
Verification of the PyDeskband control-pipe command engine.

This file gives a shallow embedding of the C++ command-protocol engine of
PyDeskband (the revision with the `Response` class and the caught
`TextInfoNullException`, i.e. `ControlPipe::processRequest` and its helpers),
and proves properties of the embedded definitions.

Modelling conventions:

* `std::string` is `String`; `split` mirrors the getline-based splitter.
* `std::stoi` / `std::stol` / `std::stoull` are modelled as `Option`-returning
  parsers (`none` models a thrown `std::invalid_argument` or
  `std::out_of_range`); on Windows both `int` and `long` are 32-bit signed and
  `unsigned long long`/`size_t` are 64-bit.
* Reading `lineSplit[i]` past the end of the token vector is undefined
  behaviour in the C++; it is modelled as the distinguished fault
  `Fault.tokenOutOfRange`.  An uncaught numeric-parse exception is the fault
  `Fault.invalidArgument`.  Both escape `processRequest`; only
  `TextInfoNullException` is caught inside it.
* External collaborators (window geometry, text measurement, repaint,
  `SendMessage`, the shell) are an `Env` record / ignored side effects.
-/

/-- Digit characters as produced by `std::to_string` (the character `'0' + d`). -/
def digitChar (d : Nat) : Char :=
  if d = 0 then '0' else if d = 1 then '1' else if d = 2 then '2'
  else if d = 3 then '3' else if d = 4 then '4' else if d = 5 then '5'
  else if d = 6 then '6' else if d = 7 then '7' else if d = 8 then '8'
  else if d = 9 then '9' else '*'

/-- Decimal digit recognition, as `isdigit` does on the ten ASCII digits. -/
def charToDigit? (c : Char) : Option Nat :=
  if c = '0' then some 0 else if c = '1' then some 1 else if c = '2' then some 2
  else if c = '3' then some 3 else if c = '4' then some 4 else if c = '5' then some 5
  else if c = '6' then some 6 else if c = '7' then some 7 else if c = '8' then some 8
  else if c = '9' then some 9 else none

/-- Fuel-driven core of the decimal printer (structural recursion on the
fuel, so that concrete numerals evaluate by reduction). -/
def toDigitsAux : Nat → Nat → List Char
  | 0, _ => []
  | fuel + 1, n =>
    if n < 10 then [digitChar n]
    else toDigitsAux fuel (n / 10) ++ [digitChar (n % 10)]

/-- Decimal digits of `n`, most significant first; mirrors `std::to_string` on
unsigned values. -/
def toDigits (n : Nat) : List Char := toDigitsAux (n + 1) n

/-- Model of `std::to_string` on an unsigned value. -/
def natToStr (n : Nat) : String := ⟨toDigits n⟩

/-- Model of `std::to_string` on a signed value (`int` / `long`). -/
def intToStr (i : Int) : String :=
  if i < 0 then ⟨'-' :: toDigits i.natAbs⟩ else ⟨toDigits i.toNat⟩

/-- White-space characters skipped by `strtol`-family parsers. -/
def isSpaceChar (c : Char) : Bool :=
  c = ' ' || c = '\t' || c = '\n' || c = '\r' || c = '\x0b' || c = '\x0c'

/-- Optional sign at the head of the remaining characters. Returns
(isNegative, rest). -/
def parseSign (cs : List Char) : Bool × List Char :=
  match cs with
  | [] => (false, [])
  | c :: rest =>
    if c = '-' then (true, rest)
    else if c = '+' then (false, rest)
    else (false, c :: rest)

/-- Longest run of leading decimal digits, as digit values. -/
def takeDigits : List Char → List Nat
  | [] => []
  | c :: cs =>
    match charToDigit? c with
    | some d => d :: takeDigits cs
    | none => []

/-- Value of a most-significant-first digit list. -/
def digitsVal (ds : List Nat) : Nat := ds.foldl (fun a d => a * 10 + d) 0

/-- Model of `std::stoi` (32-bit `int` on Windows): skip white space, optional
sign, longest digit run; no digits models a thrown `std::invalid_argument` and
a value outside `int` models a thrown `std::out_of_range`, both as `none`. -/
def stoi (s : String) : Option Int :=
  let cs := s.data.dropWhile isSpaceChar
  let (neg, cs') := parseSign cs
  let ds := takeDigits cs'
  if ds = [] then none
  else
    let v : Int := if neg then -(digitsVal ds : Int) else (digitsVal ds : Int)
    if v < -(2 ^ 31 : Int) ∨ (2 ^ 31 : Int) ≤ v then none else some v

/-- Model of `std::stol`; on Windows `long` is also 32-bit, so it coincides
with `stoi`. -/
def stol (s : String) : Option Int := stoi s

/-- Model of `std::stoull` (64-bit): a leading minus sign negates modulo
`2 ^ 64`; a magnitude beyond `2 ^ 64 - 1` models a thrown `std::out_of_range`. -/
def stoull (s : String) : Option Nat :=
  let cs := s.data.dropWhile isSpaceChar
  let (neg, cs') := parseSign cs
  let ds := takeDigits cs'
  if ds = [] then none
  else
    let v := digitsVal ds
    if 2 ^ 64 ≤ v then none
    else some (if neg then (2 ^ 64 - v) % 2 ^ 64 else v)

/-- Conversion of a signed value to `unsigned` (32-bit wraparound), as in the
assignments `textInfo->red = std::stoi(...)` and the `int` to `DWORD` key
conversion. -/
def toUnsigned (v : Int) : Nat := (v % (2 ^ 32 : Int)).toNat

/-- Splitter core on character lists: `splitChars d cs` is the list of chunks
of `cs` separated by the delimiter `d`.  It always returns at least one chunk,
exactly like the getline loop in `split` (which pushes one string per
`getline`, including a final empty one after a trailing delimiter, and one
empty string for empty input). -/
def splitChars (d : Char) : List Char → List (List Char)
  | [] => [[]]
  | c :: cs =>
    if c = d then [] :: splitChars d cs
    else
      match splitChars d cs with
      | t :: ts => (c :: t) :: ts
      | [] => [[c]]

/-- Model of the file-level `split(std::string, char)` helper. -/
def split (s : String) (delim : Char) : List String :=
  (splitChars delim s.data).map (fun l => ⟨l⟩)

/-- Model of the `TextInfo` struct; `RECT` coordinates are 32-bit signed
`LONG`s, the colour channels are `unsigned`.  The constructor zeroes the whole
struct (`memset`), so the default instance is all-zero with empty text. -/
structure TextInfo where
  red : Nat
  green : Nat
  blue : Nat
  text : String
  rectLeft : Int
  rectTop : Int
  rectRight : Int
  rectBottom : Int
deriving DecidableEq, Repr

/-- Result of the zero-initialising `TextInfo()` constructor. -/
def defaultTextInfo : TextInfo :=
  { red := 0, green := 0, blue := 0, text := ""
    rectLeft := 0, rectTop := 0, rectRight := 0, rectBottom := 0 }

/-- Model of the `Response` class: a status string plus an ordered field
list. -/
structure Response where
  status : String
  fields : List String
deriving DecidableEq, Repr

/-- Model of the `Response()` constructor. -/
def Response.new : Response := { status := "BadCommand", fields := [] }

/-- Model of `Response::addField`: append the field and set status to OK. -/
def Response.addField (r : Response) (field : String) : Response :=
  { status := "OK", fields := r.fields ++ [field] }

/-- Model of `Response::setStatus`. -/
def Response.setStatus (r : Response) (s : String) : Response :=
  { r with status := s }

/-- Model of `Response::setOk`. -/
def Response.setOk (r : Response) : Response :=
  { r with status := "OK" }

/-- Model of `Response::toString`: the status, then the delimiter, then each
field followed by the delimiter, then one newline. -/
def Response.toString (r : Response) : String :=
  r.fields.foldl (fun acc field => acc ++ field ++ ",") (r.status ++ ",") ++ "\n"

/-- Lookup in the `std::map<DWORD, std::string>` member `msgToAction`,
modelled as an association list with unique keys. -/
def mapFind (m : List (Nat × String)) (k : Nat) : Option String :=
  match m.find? (fun p => p.1 == k) with
  | some p => some p.2
  | none => none

/-- Model of `msgToAction[msg] = sysCall`: overwrite an existing entry in
place, otherwise append a new one. -/
def mapInsert (m : List (Nat × String)) (k : Nat) (v : String) : List (Nat × String) :=
  if (m.find? (fun p => p.1 == k)).isSome then
    m.map (fun p => if p.1 == k then (k, v) else p)
  else m ++ [(k, v)]

/-- Model of `msgToAction.erase(msg)`. -/
def mapErase (m : List (Nat × String)) (k : Nat) : List (Nat × String) :=
  m.filter (fun p => p.1 != k)

/-- Mutable state of a `ControlPipe` object, restricted to the fields the
command dispatcher reads and writes.  The logging-enabled flag is the
process-wide atomic from `Logger.cpp` (initially false), folded into the state
since `SET LOGGING_ENABLED` mutates it. -/
structure ControlPipe where
  textInfos : List TextInfo
  textInfoTarget : Option Nat
  msgToAction : List (Nat × String)
  shouldStop : Bool
  loggingEnabled : Bool
deriving DecidableEq, Repr

/-- State at listener startup: empty store, unset target, empty registry. -/
def initState : ControlPipe :=
  { textInfos := [], textInfoTarget := none, msgToAction := []
    shouldStop := false, loggingEnabled := false }

/-- External collaborators consumed by the dispatcher: window geometry
(`GetClientRect` width and height differences) and text measurement
(`GetTextExtentPoint32A`). -/
structure Env where
  width : Int
  height : Int
  textSize : String → Int × Int

/-- Faults that escape `processRequest`: reading a token past the end of the
`lineSplit` vector (undefined behaviour in the C++), and an uncaught
`std::invalid_argument` / `std::out_of_range` from a numeric parse. -/
inductive Fault where
  | tokenOutOfRange : Fault
  | invalidArgument : Fault
deriving DecidableEq, Repr

/-- Abnormal outcomes inside the dispatch `try` block: an escaping fault, or
the caught `TextInfoNullException`. -/
inductive DErr where
  | fault : Fault → DErr
  | textInfoNull : DErr
deriving DecidableEq, Repr

/-- Model of reading `lineSplit[i]`: out of range is the token fault. -/
def tok (ls : List String) (i : Nat) : Except DErr String :=
  match ls[i]? with
  | some t => .ok t
  | none => .error (.fault .tokenOutOfRange)

/-- Fallible wrapper of `stoi`. -/
def stoiE (s : String) : Except DErr Int :=
  match stoi s with
  | some v => .ok v
  | none => .error (.fault .invalidArgument)

/-- Fallible wrapper of `stol`. -/
def stolE (s : String) : Except DErr Int :=
  match stol s with
  | some v => .ok v
  | none => .error (.fault .invalidArgument)

/-- Fallible wrapper of `stoull`. -/
def stoullE (s : String) : Except DErr Nat :=
  match stoull s with
  | some v => .ok v
  | none => .error (.fault .invalidArgument)

/-- Model of the file-level `verifyTextInfo` helper: throw
`TextInfoNullException` when the resolved pointer is null.  The pointer is
modelled as an optional in-bounds index into `textInfos`. -/
def verifyTextInfo (textInfo : Option Nat) : Except DErr Nat :=
  match textInfo with
  | some i => .ok i
  | none => .error .textInfoNull

/-- Model of `ControlPipe::getTextInfoTarget`: first, an empty store gets one
default `TextInfo` appended; then the result points at the last element, or at
the explicit target index when such a target is set (null when that index is
out of bounds). -/
def getTextInfoTarget (s : ControlPipe) : Option Nat × ControlPipe :=
  let s' := if s.textInfos.isEmpty
            then { s with textInfos := s.textInfos ++ [defaultTextInfo] }
            else s
  match s'.textInfoTarget with
  | none => (some (s'.textInfos.length - 1), s')
  | some t => if t < s'.textInfos.length then (some t, s') else (none, s')

/-- Replacement of the element `textInfo` points at, modelling a field write
through the resolved pointer (the index is always in bounds when reached). -/
def updateTI (s : ControlPipe) (i : Nat) (f : TextInfo → TextInfo) : ControlPipe :=
  match s.textInfos[i]? with
  | some ti => { s with textInfos := s.textInfos.set i (f ti) }
  | none => s

/-- Element read through the resolved pointer. -/
def readTI (s : ControlPipe) (i : Nat) : TextInfo :=
  s.textInfos.getD i defaultTextInfo

/-- Handler of the `GET` sub-chain of `ControlPipe::processRequest`'s `try`
block.  `tgt` is the pointer returned by `getTextInfoTarget`; the state `s`
already contains that call's possible auto-append. -/
def dispatchGet (env : Env) (ls : List String) (tgt : Option Nat) (s : ControlPipe) :
    Except DErr (Response × ControlPipe) :=
  let r0 := Response.new
  match tok ls 1 with
  | .error e => .error e
  | .ok k =>
    if k = "WIDTH" then .ok (r0.addField (intToStr env.width), s)
    else if k = "HEIGHT" then .ok (r0.addField (intToStr env.height), s)
    else if k = "TEXTSIZE" then
      match tok ls 2 with
      | .error e => .error e
      | .ok t =>
        let sz := env.textSize t
        .ok ((r0.addField (intToStr sz.1)).addField (intToStr sz.2), s)
    else if k = "TEXTINFOCOUNT" then
      .ok (r0.addField (natToStr s.textInfos.length), s)
    else if k = "TEXTINFO_TARGET" then
      match s.textInfoTarget with
      | some t => .ok (r0.addField (natToStr t), s)
      | none => .ok (r0.addField "None", s)
    else if k = "RGB" then
      match verifyTextInfo tgt with
      | .error e => .error e
      | .ok i =>
        let ti := readTI s i
        .ok (((r0.addField (natToStr ti.red)).addField
              (natToStr ti.green)).addField (natToStr ti.blue), s)
    else if k = "TEXT" then
      match verifyTextInfo tgt with
      | .error e => .error e
      | .ok i => .ok (r0.addField (readTI s i).text, s)
    else if k = "XY" then
      match verifyTextInfo tgt with
      | .error e => .error e
      | .ok i =>
        let ti := readTI s i
        .ok ((r0.addField (intToStr ti.rectLeft)).addField (intToStr ti.rectTop), s)
    else if k = "TRANSPORT_VERSION" then
      match verifyTextInfo tgt with
      | .error e => .error e
      | .ok _ => .ok (r0.addField "1", s)
    else .ok (r0, s)

/-- Handler of the `SET` sub-chain of `ControlPipe::processRequest`'s `try`
block.  Statements execute left to right, so each token read, parse and field
write is sequenced exactly as in the C++. -/
def dispatchSet (env : Env) (ls : List String) (tgt : Option Nat) (s : ControlPipe) :
    Except DErr (Response × ControlPipe) :=
  let r0 := Response.new
  match tok ls 1 with
  | .error e => .error e
  | .ok k =>
    if k = "RGB" then
      match verifyTextInfo tgt with
      | .error e => .error e
      | .ok i =>
        match tok ls 2 with
        | .error e => .error e
        | .ok t2 =>
          match stoiE t2 with
          | .error e => .error e
          | .ok vr =>
            let s := updateTI s i (fun ti => { ti with red := toUnsigned vr })
            match tok ls 3 with
            | .error e => .error e
            | .ok t3 =>
              match stoiE t3 with
              | .error e => .error e
              | .ok vg =>
                let s := updateTI s i (fun ti => { ti with green := toUnsigned vg })
                match tok ls 4 with
                | .error e => .error e
                | .ok t4 =>
                  match stoiE t4 with
                  | .error e => .error e
                  | .ok vb =>
                    let s := updateTI s i (fun ti => { ti with blue := toUnsigned vb })
                    .ok (r0.setOk, s)
    else if k = "TEXT" then
      match verifyTextInfo tgt with
      | .error e => .error e
      | .ok i =>
        match tok ls 2 with
        | .error e => .error e
        | .ok t2 => .ok (r0.setOk, updateTI s i (fun ti => { ti with text := t2 }))
    else if k = "XY" then
      match verifyTextInfo tgt with
      | .error e => .error e
      | .ok i =>
        match tok ls 2 with
        | .error e => .error e
        | .ok t2 =>
          match stolE t2 with
          | .error e => .error e
          | .ok vx =>
            let s := updateTI s i (fun ti => { ti with rectLeft := vx })
            match tok ls 3 with
            | .error e => .error e
            | .ok t3 =>
              match stolE t3 with
              | .error e => .error e
              | .ok vy => .ok (r0.setOk, updateTI s i (fun ti => { ti with rectTop := vy }))
    else if k = "WIN_MSG" then
      match tok ls 2 with
      | .error e => .error e
      | .ok t2 =>
        match stoiE t2 with
        | .error e => .error e
        | .ok msgv =>
          let key := toUnsigned msgv
          if ls.length < 4 then
            match mapFind s.msgToAction key with
            | some _ =>
              .ok (r0.setOk, { s with msgToAction := mapErase s.msgToAction key })
            | none => .ok (r0.setStatus "MSG_NOT_FOUND", s)
          else
            match tok ls 3 with
            | .error e => .error e
            | .ok sysCall =>
              .ok (r0.setOk, { s with msgToAction := mapInsert s.msgToAction key sysCall })
    else if k = "TEXTINFO_TARGET" then
      if ls.length = 3 then
        match tok ls 2 with
        | .error e => .error e
        | .ok t2 =>
          match stoullE t2 with
          | .error e => .error e
          | .ok tv => .ok (r0.setOk, { s with textInfoTarget := some tv })
      else .ok (r0.setOk, { s with textInfoTarget := none })
    else if k = "LOGGING_ENABLED" then
      match tok ls 2 with
      | .error e => .error e
      | .ok t2 =>
        match stoiE t2 with
        | .error e => .error e
        | .ok bv => .ok (r0.setOk, { s with loggingEnabled := bv != 0 })
    else .ok (r0, s)

/-- Dispatch over the token list, mirroring the `if`/`else if` chain inside
the `try` block of `ControlPipe::processRequest`; the `GET` and `SET`
sub-chains are the two handlers above. -/
def dispatchReq (env : Env) (ls : List String) (tgt : Option Nat) (s : ControlPipe) :
    Except DErr (Response × ControlPipe) :=
  let r0 := Response.new
  match ls[0]? with
  | none => .ok (r0, s)
  | some v =>
    if v = "GET" then dispatchGet env ls tgt s
    else if v = "SET" then dispatchSet env ls tgt s
    else if v = "NEW_TEXTINFO" then
      .ok (r0.setOk, { s with textInfos := s.textInfos ++ [defaultTextInfo] })
    else if v = "PAINT" then .ok (r0.setOk, s)
    else if v = "CLEAR" then .ok (r0.setOk, { s with textInfos := [] })
    else if v = "STOP" then .ok (r0.setOk, { s with shouldStop := true })
    else if v = "SENDMESSAGE" then
      match tok ls 1 with
      | .error e => .error e
      | .ok t1 =>
        match stoiE t1 with
        | .error e => .error e
        | .ok _ => .ok (r0.setOk, s)
    else .ok (r0, s)

/-- Model of `ControlPipe::processRequest`: split the line, resolve the target
pointer (with its auto-append side effect), dispatch, and catch
`TextInfoNullException` by setting the `TextInfoTargetInvalid` status on the
response.  Every branch that can throw `TextInfoNullException` calls
`GET_TEXT_INFO()` before adding any field or mutating any state, so at the
catch the response has no fields and the state is the post-resolution one. -/
def processRequest (env : Env) (message : String) (s0 : ControlPipe) :
    Except Fault (Response × ControlPipe) :=
  let lineSplit := split message ','
  let res := getTextInfoTarget s0
  match dispatchReq env lineSplit res.1 res.2 with
  | .ok x => .ok x
  | .error (.fault f) => .error f
  | .error .textInfoNull => .ok (Response.new.setStatus "TextInfoTargetInvalid", res.2)

/-- Model of the value `processRequest` actually returns over the wire
(`response.toString()`). -/
def processRequestStr (env : Env) (message : String) (s0 : ControlPipe) :
    Except Fault (String × ControlPipe) :=
  match processRequest env message s0 with
  | .ok (r, s) => .ok (r.toString, s)
  | .error f => .error f

/-- Spec-side serialization of the field list, following the wording of the
specification: each field in order, each followed by one comma. -/
def serializeFields : List String → String
  | [] => ""
  | f :: fs => f ++ "," ++ serializeFields fs

/-- Fixed environment used for closed evaluations: a zero-sized surface and a
zero text measurement. -/
def env0 : Env := { width := 0, height := 0, textSize := fun _ => (0, 0) }

instance {ε α : Type} [DecidableEq ε] [DecidableEq α] : DecidableEq (Except ε α) :=
  fun a b =>
    match a, b with
    | .ok x, .ok y =>
      if h : x = y then .isTrue (by rw [h]) else
        .isFalse (fun hc => h (Except.ok.inj hc))
    | .error e, .error e' =>
      if h : e = e' then .isTrue (by rw [h]) else
        .isFalse (fun hc => h (Except.error.inj hc))
    | .ok _, .error _ => .isFalse (fun hc => Except.noConfusion hc)
    | .error _, .ok _ => .isFalse (fun hc => Except.noConfusion hc)

/-! Lemmas about digits, numeral parsing and printing. -/

theorem toDigitsAux_congr (f1 : Nat) :
    ∀ (f2 n : Nat), n < f1 → n < f2 → toDigitsAux f1 n = toDigitsAux f2 n := by
  induction f1 with
  | zero => intro f2 n h1 _; omega
  | succ f1 ih =>
    intro f2 n h1 h2
    cases f2 with
    | zero => omega
    | succ f2 =>
      show (if n < 10 then [digitChar n] else toDigitsAux f1 (n / 10) ++ [digitChar (n % 10)]) =
        (if n < 10 then [digitChar n] else toDigitsAux f2 (n / 10) ++ [digitChar (n % 10)])
      by_cases h : n < 10
      · simp [h]
      · have hd : n / 10 < n := Nat.div_lt_self (by omega) (by omega)
        rw [if_neg h, if_neg h, ih f2 (n / 10) (by omega) (by omega)]

theorem toDigits_of_lt (n : Nat) (h : n < 10) : toDigits n = [digitChar n] := by
  show (if n < 10 then [digitChar n] else _) = [digitChar n]
  rw [if_pos h]

theorem toDigits_of_ge (n : Nat) (h : ¬ n < 10) :
    toDigits n = toDigits (n / 10) ++ [digitChar (n % 10)] := by
  show (if n < 10 then [digitChar n] else toDigitsAux n (n / 10) ++ [digitChar (n % 10)]) = _
  rw [if_neg h, toDigitsAux_congr n (n / 10 + 1) (n / 10)
    (Nat.div_lt_self (by omega) (by omega)) (by omega)]
  rfl

theorem charToDigit?_digitChar (d : Nat) (h : d < 10) :
    charToDigit? (digitChar d) = some d := by
  interval_cases d <;> rfl

theorem digit_char_props (c : Char) (h : (charToDigit? c).isSome) :
    isSpaceChar c = false ∧ c ≠ '-' ∧ c ≠ '+' ∧ c ≠ ',' := by
  unfold charToDigit? at h
  repeat' split at h
  all_goals simp_all
  all_goals subst_vars
  all_goals decide

theorem allDigits_toDigits (n : Nat) : ∀ c ∈ toDigits n, (charToDigit? c).isSome := by
  induction n using Nat.strong_induction_on with
  | _ n ih =>
    by_cases h : n < 10
    · rw [toDigits_of_lt n h]
      intro c hc
      simp only [List.mem_singleton] at hc
      subst hc
      rw [charToDigit?_digitChar n h]
      rfl
    · rw [toDigits_of_ge n h]
      intro c hc
      rcases List.mem_append.mp hc with h1 | h2
      · exact ih (n / 10) (Nat.div_lt_self (by omega) (by omega)) c h1
      · simp only [List.mem_singleton] at h2
        subst h2
        rw [charToDigit?_digitChar (n % 10) (Nat.mod_lt n (by omega))]
        rfl

theorem takeDigits_append_of_all (xs ys : List Char)
    (h : ∀ c ∈ xs, (charToDigit? c).isSome) :
    takeDigits (xs ++ ys) = takeDigits xs ++ takeDigits ys := by
  induction xs with
  | nil => simp [takeDigits]
  | cons c cs ih =>
    have hc : (charToDigit? c).isSome := h c (List.mem_cons_self c cs)
    rcases Option.isSome_iff_exists.mp hc with ⟨d, hd⟩
    have ih' := ih (fun x hx => h x (List.mem_cons_of_mem c hx))
    simp only [List.cons_append, takeDigits, hd]
    show d :: takeDigits (cs ++ ys) = d :: (takeDigits cs ++ takeDigits ys)
    rw [ih']

theorem digitsVal_append_one (l : List Nat) (d : Nat) :
    digitsVal (l ++ [d]) = digitsVal l * 10 + d := by
  simp [digitsVal, List.foldl_append]

theorem takeDigits_toDigits (n : Nat) :
    takeDigits (toDigits n) ≠ [] ∧ digitsVal (takeDigits (toDigits n)) = n := by
  induction n using Nat.strong_induction_on with
  | _ n ih =>
    by_cases h : n < 10
    · rw [toDigits_of_lt n h]
      simp [takeDigits, charToDigit?_digitChar n h, digitsVal]
    · rw [toDigits_of_ge n h]
      rw [takeDigits_append_of_all _ _ (allDigits_toDigits (n / 10))]
      have hrec := ih (n / 10) (Nat.div_lt_self (by omega) (by omega))
      constructor
      · intro hemp
        exact hrec.1 (List.append_eq_nil.mp hemp).1
      · simp only [takeDigits, charToDigit?_digitChar (n % 10) (Nat.mod_lt n (by omega))]
        rw [digitsVal_append_one, hrec.2]
        omega

theorem toDigits_ne_nil (n : Nat) : toDigits n ≠ [] := by
  by_cases h : n < 10
  · rw [toDigits_of_lt n h]; simp
  · rw [toDigits_of_ge n h]; simp

theorem comma_not_mem_toDigits (n : Nat) : ',' ∉ toDigits n := by
  intro hmem
  have := allDigits_toDigits n ',' hmem
  simp [charToDigit?] at this

theorem dropWhile_space_toDigits (n : Nat) :
    (toDigits n).dropWhile isSpaceChar = toDigits n := by
  cases h : toDigits n with
  | nil => simp
  | cons c cs =>
    have hc : (charToDigit? c).isSome := by
      apply allDigits_toDigits n
      rw [h]
      exact List.mem_cons_self c cs
    rw [List.dropWhile_cons, (digit_char_props c hc).1]
    simp

theorem parseSign_digits (n : Nat) : parseSign (toDigits n) = (false, toDigits n) := by
  cases h : toDigits n with
  | nil => exact absurd h (toDigits_ne_nil n)
  | cons c cs =>
    have hc : (charToDigit? c).isSome := by
      apply allDigits_toDigits n
      rw [h]
      exact List.mem_cons_self c cs
    obtain ⟨-, h1, h2, -⟩ := digit_char_props c hc
    simp [parseSign, h1, h2]

theorem stoi_natToStr (n : Nat) (h : n < 2 ^ 31) : stoi (natToStr n) = some n := by
  unfold stoi natToStr
  simp only [dropWhile_space_toDigits, parseSign_digits]
  obtain ⟨hne, hval⟩ := takeDigits_toDigits n
  simp only [hne, if_neg, ite_false, hval]
  have hr : ¬ ((n : Int) < -(2 ^ 31 : Int) ∨ (2 ^ 31 : Int) ≤ (n : Int)) := by
    push_cast
    omega
  simp [hr]
  omega

theorem stoull_natToStr (n : Nat) (h : n < 2 ^ 64) : stoull (natToStr n) = some n := by
  unfold stoull natToStr
  simp only [dropWhile_space_toDigits, parseSign_digits]
  obtain ⟨hne, hval⟩ := takeDigits_toDigits n
  simp only [hne, if_neg, ite_false, hval]
  rw [if_neg (by omega)]
  simp

theorem toUnsigned_ofNat (n : Nat) (h : n < 2 ^ 32) : toUnsigned (n : Int) = n := by
  unfold toUnsigned
  rw [Int.emod_eq_of_lt (by omega) (by exact_mod_cast h)]
  simp

/-! Lemmas about the splitter. -/

theorem splitChars_ne_nil (d : Char) (cs : List Char) : splitChars d cs ≠ [] := by
  induction cs with
  | nil => simp [splitChars]
  | cons c cs ih =>
    simp only [splitChars]
    by_cases h : c = d
    · simp [h]
    · simp only [h, if_false]
      cases hs : splitChars d cs with
      | nil => exact absurd hs ih
      | cons t ts => simp

theorem splitChars_append (d : Char) (xs ys : List Char) (h : d ∉ xs) :
    splitChars d (xs ++ d :: ys) = xs :: splitChars d ys := by
  induction xs with
  | nil => simp [splitChars]
  | cons c cs ih =>
    have hc : ¬ c = d := fun hcd => h (hcd ▸ List.mem_cons_self c cs)
    have hcs : d ∉ cs := fun hm => h (List.mem_cons_of_mem c hm)
    have hrec := ih hcs
    show splitChars d (c :: (cs ++ d :: ys)) = (c :: cs) :: splitChars d ys
    rw [splitChars, if_neg hc, hrec]

theorem splitChars_no_delim (d : Char) (xs : List Char) (h : d ∉ xs) :
    splitChars d xs = [xs] := by
  induction xs with
  | nil => rfl
  | cons c cs ih =>
    have hc : ¬ c = d := fun hcd => h (hcd ▸ List.mem_cons_self c cs)
    have hcs : d ∉ cs := fun hm => h (List.mem_cons_of_mem c hm)
    have hrec := ih hcs
    rw [splitChars, if_neg hc, hrec]

theorem splitChars_three (a b cs : List Char) (ha : ',' ∉ a) (hb : ',' ∉ b)
    (hc : ',' ∉ cs) :
    splitChars ',' (a ++ ',' :: (b ++ ',' :: cs)) = [a, b, cs] := by
  rw [splitChars_append ',' a _ ha, splitChars_append ',' b _ hb,
    splitChars_no_delim ',' cs hc]

theorem splitChars_five (a b c3 c4 c5 : List Char) (ha : ',' ∉ a) (hb : ',' ∉ b)
    (h3 : ',' ∉ c3) (h4 : ',' ∉ c4) (h5 : ',' ∉ c5) :
    splitChars ',' (a ++ ',' :: (b ++ ',' :: (c3 ++ ',' :: (c4 ++ ',' :: c5)))) =
      [a, b, c3, c4, c5] := by
  rw [splitChars_append ',' a _ ha, splitChars_append ',' b _ hb,
    splitChars_append ',' c3 _ h3, splitChars_append ',' c4 _ h4,
    splitChars_no_delim ',' c5 h5]

theorem strData_append (a b : String) : (a ++ b).data = a.data ++ b.data := by
  cases a
  cases b
  rfl

theorem strData_mk (cs : List Char) : (⟨cs⟩ : String).data = cs := rfl

theorem splitChars_four (a b c3 c4 : List Char) (ha : ',' ∉ a) (hb : ',' ∉ b)
    (h3 : ',' ∉ c3) (h4 : ',' ∉ c4) :
    splitChars ',' (a ++ ',' :: (b ++ ',' :: (c3 ++ ',' :: c4))) = [a, b, c3, c4] := by
  rw [splitChars_append ',' a _ ha, splitChars_append ',' b _ hb,
    splitChars_append ',' c3 _ h3, splitChars_no_delim ',' c4 h4]

theorem split_get_rgb_like (p : String) (t : String) (hp : ',' ∉ p.data)
    (h : ',' ∉ t.data) :
    split (p ++ "," ++ t) ',' = [p, t] := by
  obtain ⟨ps⟩ := p
  obtain ⟨cs⟩ := t
  unfold split
  have hd : ((⟨ps⟩ : String) ++ "," ++ ⟨cs⟩).data = ps ++ ',' :: cs := by
    simp only [strData_append, strData_mk, List.append_assoc]
    rfl
  rw [hd, splitChars_append ',' ps _ hp, splitChars_no_delim ',' cs h]
  rfl

theorem split_set_target_tok (t : String) (h : ',' ∉ t.data) :
    split ("SET,TEXTINFO_TARGET," ++ t) ',' = ["SET", "TEXTINFO_TARGET", t] := by
  obtain ⟨cs⟩ := t
  unfold split
  have hd : ("SET,TEXTINFO_TARGET," ++ (⟨cs⟩ : String)).data =
      ['S', 'E', 'T'] ++ ',' ::
        (['T', 'E', 'X', 'T', 'I', 'N', 'F', 'O', '_', 'T', 'A', 'R', 'G', 'E', 'T'] ++
          ',' :: cs) := by
    simp only [strData_append, strData_mk]
    rfl
  rw [hd, splitChars_three _ _ _ (by decide) (by decide) h]
  rfl

theorem split_set_winmsg_two (t : String) (h : ',' ∉ t.data) :
    split ("SET,WIN_MSG," ++ t) ',' = ["SET", "WIN_MSG", t] := by
  obtain ⟨cs⟩ := t
  unfold split
  have hd : ("SET,WIN_MSG," ++ (⟨cs⟩ : String)).data =
      ['S', 'E', 'T'] ++ ',' :: (['W', 'I', 'N', '_', 'M', 'S', 'G'] ++ ',' :: cs) := by
    simp only [strData_append, strData_mk]
    rfl
  rw [hd, splitChars_three _ _ _ (by decide) (by decide) h]
  rfl

theorem split_set_winmsg_three (t u : String) (ht : ',' ∉ t.data) (hu : ',' ∉ u.data) :
    split ("SET,WIN_MSG," ++ t ++ "," ++ u) ',' = ["SET", "WIN_MSG", t, u] := by
  obtain ⟨cs⟩ := t
  obtain ⟨us⟩ := u
  unfold split
  have hd : ("SET,WIN_MSG," ++ (⟨cs⟩ : String) ++ "," ++ (⟨us⟩ : String)).data =
      ['S', 'E', 'T'] ++ ',' ::
        (['W', 'I', 'N', '_', 'M', 'S', 'G'] ++ ',' :: (cs ++ ',' :: us)) := by
    simp only [strData_append, strData_mk, List.append_assoc]
    rfl
  rw [hd, splitChars_four _ _ _ _ (by decide) (by decide) ht hu]
  rfl

theorem split_set_rgb_vals (r g b : String) (hr : ',' ∉ r.data) (hg : ',' ∉ g.data)
    (hb : ',' ∉ b.data) :
    split ("SET,RGB," ++ r ++ "," ++ g ++ "," ++ b) ',' = ["SET", "RGB", r, g, b] := by
  obtain ⟨rs⟩ := r
  obtain ⟨gs⟩ := g
  obtain ⟨bs⟩ := b
  unfold split
  have hd : ("SET,RGB," ++ (⟨rs⟩ : String) ++ "," ++ (⟨gs⟩ : String) ++ "," ++
        (⟨bs⟩ : String)).data =
      ['S', 'E', 'T'] ++ ',' ::
        (['R', 'G', 'B'] ++ ',' :: (rs ++ ',' :: (gs ++ ',' :: bs))) := by
    simp only [strData_append, strData_mk, List.append_assoc]
    rfl
  rw [hd, splitChars_five _ _ _ _ _ (by decide) (by decide) hr hg hb]
  rfl

theorem comma_not_mem_natToStr (n : Nat) : ',' ∉ (natToStr n).data :=
  comma_not_mem_toDigits n

/-! Helper lemmas about the embedded program. -/

theorem strAppend_assoc (a b c : String) : a ++ b ++ c = a ++ (b ++ c) := by
  obtain ⟨as⟩ := a
  obtain ⟨bs⟩ := b
  obtain ⟨cs⟩ := c
  show (⟨as ++ bs ++ cs⟩ : String) = ⟨as ++ (bs ++ cs)⟩
  rw [List.append_assoc]

theorem strAppend_empty (a : String) : a ++ "" = a := by
  obtain ⟨as⟩ := a
  show (⟨as ++ []⟩ : String) = ⟨as⟩
  rw [List.append_nil]

theorem foldl_serializeFields (fs : List String) (acc : String) :
    fs.foldl (fun a f => a ++ f ++ ",") acc = acc ++ serializeFields fs := by
  induction fs generalizing acc with
  | nil => rw [List.foldl_nil, serializeFields, strAppend_empty]
  | cons f fs ih =>
    rw [List.foldl_cons, ih, serializeFields, ← strAppend_assoc, ← strAppend_assoc]

theorem getTextInfoTarget_snd (s : ControlPipe) :
    (getTextInfoTarget s).2 =
      if s.textInfos.isEmpty then { s with textInfos := s.textInfos ++ [defaultTextInfo] }
      else s := by
  unfold getTextInfoTarget
  cases hemp : s.textInfos.isEmpty with
  | false =>
    simp only [hemp, Bool.false_eq_true, if_false]
    cases h : s.textInfoTarget with
    | none => simp [h]
    | some t =>
      simp only [h]
      split <;> rfl
  | true =>
    simp only [hemp, if_true]
    cases h : s.textInfoTarget with
    | none => simp [h]
    | some t =>
      simp only [h]
      split <;> rfl

theorem getTextInfoTarget_nonempty_fst_some (s : ControlPipe) (t : Nat)
    (hne : s.textInfos ≠ []) (ht : s.textInfoTarget = some t) :
    (getTextInfoTarget s).1 = if t < s.textInfos.length then some t else none := by
  unfold getTextInfoTarget
  have hemp : s.textInfos.isEmpty = false := by
    cases hs : s.textInfos with
    | nil => exact absurd hs hne
    | cons a l => rfl
  simp only [hemp, Bool.false_eq_true, if_false, ht]
  split <;> rfl

theorem getTextInfoTarget_nonempty_snd (s : ControlPipe) (hne : s.textInfos ≠ []) :
    (getTextInfoTarget s).2 = s := by
  rw [getTextInfoTarget_snd]
  cases hs : s.textInfos with
  | nil => exact absurd hs hne
  | cons a l => rfl

theorem controlPipe_eta (s : ControlPipe) :
    (ControlPipe.mk s.textInfos s.textInfoTarget s.msgToAction s.shouldStop
      s.loggingEnabled) = s := rfl

theorem getTextInfoTarget_snd_of_empty (s : ControlPipe) (h : s.textInfos = []) :
    (getTextInfoTarget s).2 = { s with textInfos := [defaultTextInfo] } := by
  rw [getTextInfoTarget_snd, h]
  rfl

theorem getTextInfoTarget_snd_fields (s : ControlPipe) :
    (getTextInfoTarget s).2.textInfoTarget = s.textInfoTarget ∧
    (getTextInfoTarget s).2.msgToAction = s.msgToAction ∧
    (getTextInfoTarget s).2.shouldStop = s.shouldStop ∧
    (getTextInfoTarget s).2.loggingEnabled = s.loggingEnabled := by
  rw [getTextInfoTarget_snd]
  split <;> exact ⟨rfl, rfl, rfl, rfl⟩

theorem getTextInfoTarget_snd_ne_nil (s : ControlPipe) :
    (getTextInfoTarget s).2.textInfos ≠ [] := by
  rw [getTextInfoTarget_snd]
  split
  · simp
  · next h =>
    intro hc
    exact h (by rw [hc]; rfl)

theorem updateTI_length (s : ControlPipe) (i : Nat) (f : TextInfo → TextInfo) :
    (updateTI s i f).textInfos.length = s.textInfos.length := by
  unfold updateTI
  cases h : s.textInfos[i]? with
  | none => rfl
  | some ti => simp

theorem updateTI_fields (s : ControlPipe) (i : Nat) (f : TextInfo → TextInfo) :
    (updateTI s i f).textInfoTarget = s.textInfoTarget ∧
    (updateTI s i f).msgToAction = s.msgToAction ∧
    (updateTI s i f).shouldStop = s.shouldStop ∧
    (updateTI s i f).loggingEnabled = s.loggingEnabled := by
  unfold updateTI
  cases h : s.textInfos[i]? with
  | none => exact ⟨rfl, rfl, rfl, rfl⟩
  | some ti => exact ⟨rfl, rfl, rfl, rfl⟩

theorem readTI_updateTI_self (s : ControlPipe) (i : Nat) (f : TextInfo → TextInfo)
    (h : i < s.textInfos.length) :
    readTI (updateTI s i f) i = f (readTI s i) := by
  unfold updateTI readTI
  cases hg : s.textInfos[i]? with
  | none =>
    rw [List.getElem?_eq_getElem h] at hg
    exact absurd hg (by simp)
  | some ti =>
    have hset : (s.textInfos.set i (f ti))[i]? = some (f ti) :=
      List.getElem?_set_eq_of_lt _ h
    simp only [List.getD, List.get?_eq_getElem?, hset, hg, Option.getD_some]

theorem dispatchReq_clear (env : Env) (ls : List String) (tgt : Option Nat)
    (s : ControlPipe) (h : ls[0]? = some "CLEAR") :
    dispatchReq env ls tgt s = .ok (Response.mk "OK" [], { s with textInfos := [] }) := by
  unfold dispatchReq
  rw [h]
  simp [Response.new, Response.setOk]

theorem dispatchReq_count (env : Env) (tgt : Option Nat) (s : ControlPipe) :
    dispatchReq env ["GET", "TEXTINFOCOUNT"] tgt s =
      .ok (Response.mk "OK" [natToStr s.textInfos.length], s) := by
  unfold dispatchReq dispatchGet tok
  simp [Response.new, Response.addField]

theorem dispatchReq_new_textinfo (env : Env) (ls : List String) (tgt : Option Nat)
    (s : ControlPipe) (h : ls[0]? = some "NEW_TEXTINFO") :
    dispatchReq env ls tgt s =
      .ok (Response.mk "OK" [], { s with textInfos := s.textInfos ++ [defaultTextInfo] }) := by
  unfold dispatchReq
  rw [h]
  simp [Response.new, Response.setOk]

theorem dispatchReq_unknown_new (env : Env) (tgt : Option Nat) (s : ControlPipe) :
    dispatchReq env ["NEW"] tgt s = .ok (Response.mk "BadCommand" [], s) := by
  unfold dispatchReq
  simp [Response.new]

theorem dispatchReq_label_null (env : Env) (s : ControlPipe) :
    ∀ ls ∈ ([["GET", "RGB"], ["GET", "TEXT"], ["GET", "XY"],
             ["SET", "RGB", "1", "2", "3"], ["SET", "TEXT", "x"],
             ["SET", "XY", "4", "5"]] : List (List String)),
      dispatchReq env ls none s = .error .textInfoNull := by
  intro ls hls
  fin_cases hls <;> (unfold dispatchReq dispatchGet dispatchSet tok verifyTextInfo; simp)

theorem dispatchReq_set_target (env : Env) (t : String) (tgt : Option Nat)
    (s : ControlPipe) (v : Nat) (h : stoull t = some v) :
    dispatchReq env ["SET", "TEXTINFO_TARGET", t] tgt s =
      .ok (Response.mk "OK" [], { s with textInfoTarget := some v }) := by
  unfold dispatchReq dispatchSet tok stoullE
  simp [h, Response.new, Response.setOk]

theorem processRequest_target_invalid (env : Env) (s1 : ControlPipe)
    (hne : s1.textInfos ≠ []) (hlen : s1.textInfos.length ≤ 5)
    (htgt : s1.textInfoTarget = some 5) :
    ∀ m ∈ (["GET,RGB", "GET,TEXT", "GET,XY", "SET,RGB,1,2,3", "SET,TEXT,x",
            "SET,XY,4,5"] : List String),
      processRequest env m s1 = .ok (Response.mk "TextInfoTargetInvalid" [], s1) := by
  have e1 : split "GET,RGB" ',' = ["GET", "RGB"] := by decide
  have e2 : split "GET,TEXT" ',' = ["GET", "TEXT"] := by decide
  have e3 : split "GET,XY" ',' = ["GET", "XY"] := by decide
  have e4 : split "SET,RGB,1,2,3" ',' = ["SET", "RGB", "1", "2", "3"] := by decide
  have e5 : split "SET,TEXT,x" ',' = ["SET", "TEXT", "x"] := by decide
  have e6 : split "SET,XY,4,5" ',' = ["SET", "XY", "4", "5"] := by decide
  have hsnd : (getTextInfoTarget s1).2 = s1 := getTextInfoTarget_nonempty_snd s1 hne
  have hfst : (getTextInfoTarget s1).1 = none := by
    rw [getTextInfoTarget_nonempty_fst_some s1 5 hne htgt, if_neg (by omega)]
  intro m hm
  fin_cases hm <;>
    (unfold processRequest
     dsimp only
     simp only [e1, e2, e3, e4, e5, e6, hfst, hsnd]) <;>
    (rw [dispatchReq_label_null env s1 _ (by decide)]
     rfl)

theorem mapFind_cons_of_eq (p : Nat × String) (ps : List (Nat × String)) (k : Nat)
    (h : (p.1 == k) = true) : mapFind (p :: ps) k = some p.2 := by
  unfold mapFind
  rw [List.find?_cons_of_pos (l := ps)]
  exact h

theorem mapFind_cons_of_ne (p : Nat × String) (ps : List (Nat × String)) (k : Nat)
    (h : (p.1 == k) = false) : mapFind (p :: ps) k = mapFind ps k := by
  unfold mapFind
  rw [List.find?_cons_of_neg (l := ps)]
  simp [h]

theorem mapFind_mapInsert_self (m : List (Nat × String)) (k : Nat) (v : String) :
    mapFind (mapInsert m k v) k = some v := by
  unfold mapInsert
  by_cases h : (List.find? (fun p => p.1 == k) m).isSome
  · rw [if_pos h]
    revert h
    induction m with
    | nil => intro h; simp at h
    | cons p ps ih =>
      intro h
      rw [List.map_cons]
      by_cases hpk : (p.1 == k) = true
      · rw [if_pos hpk, mapFind_cons_of_eq _ _ _ (by simp)]
      · have hpk' : (p.1 == k) = false := by
          revert hpk
          cases p.1 == k <;> simp
        rw [if_neg (by simp [hpk']), mapFind_cons_of_ne _ _ _ hpk']
        apply ih
        rw [List.find?_cons_of_neg (l := ps) (by simp [hpk'])] at h
        exact h
  · rw [if_neg h]
    revert h
    induction m with
    | nil =>
      intro _
      show mapFind [(k, v)] k = some v
      exact mapFind_cons_of_eq _ _ _ (by simp)
    | cons p ps ih =>
      intro h
      have hpk : (p.1 == k) = false := by
        by_cases hpk : (p.1 == k) = true
        · exact absurd (by rw [List.find?_cons_of_pos (l := ps) hpk]; rfl) h
        · revert hpk
          cases p.1 == k <;> simp
      rw [List.cons_append, mapFind_cons_of_ne _ _ _ hpk]
      apply ih
      intro h2
      apply h
      rw [List.find?_cons_of_neg (l := ps) (by simp [hpk])]
      exact h2

theorem mapFind_mapErase_self (m : List (Nat × String)) (k : Nat) :
    mapFind (mapErase m k) k = none := by
  unfold mapErase
  induction m with
  | nil => rfl
  | cons p ps ih =>
    by_cases hpk : (p.1 == k) = true
    · have he : p.1 = k := by simpa using hpk
      rw [List.filter_cons, if_neg (by simp [he])]
      exact ih
    · have hpk' : (p.1 == k) = false := by
        revert hpk
        cases p.1 == k <;> simp
      have hne : ¬ p.1 = k := by simpa using hpk'
      rw [List.filter_cons, if_pos (by simp [hne]), mapFind_cons_of_ne _ _ _ hpk']
      exact ih

theorem dispatchReq_winmsg_upsert (env : Env) (t a : String) (tgt : Option Nat)
    (s : ControlPipe) (v : Int) (h : stoi t = some v) :
    dispatchReq env ["SET", "WIN_MSG", t, a] tgt s =
      .ok (Response.mk "OK" [],
        { s with msgToAction := mapInsert s.msgToAction (toUnsigned v) a }) := by
  unfold dispatchReq dispatchSet tok stoiE
  simp [h, Response.new, Response.setOk]

theorem dispatchReq_winmsg_remove_found (env : Env) (t : String) (tgt : Option Nat)
    (s : ControlPipe) (v : Int) (a : String) (h : stoi t = some v)
    (hf : mapFind s.msgToAction (toUnsigned v) = some a) :
    dispatchReq env ["SET", "WIN_MSG", t] tgt s =
      .ok (Response.mk "OK" [],
        { s with msgToAction := mapErase s.msgToAction (toUnsigned v) }) := by
  unfold dispatchReq dispatchSet tok stoiE
  simp [h, hf, Response.new, Response.setOk]

theorem dispatchReq_winmsg_remove_missing (env : Env) (t : String) (tgt : Option Nat)
    (s : ControlPipe) (v : Int) (h : stoi t = some v)
    (hf : mapFind s.msgToAction (toUnsigned v) = none) :
    dispatchReq env ["SET", "WIN_MSG", t] tgt s =
      .ok (Response.mk "MSG_NOT_FOUND" [], s) := by
  unfold dispatchReq dispatchSet tok stoiE
  simp [h, hf, Response.new, Response.setStatus]

/-! Claim theorems. -/

/-- C1: from every store with fewer than 6 labels, after `SET
TEXTINFO_TARGET,5` every subsequent GET or SET on a label field (GET
RGB/TEXT/XY, SET RGB/TEXT/XY) answers the distinguished
`TextInfoTargetInvalid` status with no fields, and the label store — its
length and every record in it — is exactly the same after each such request
as before it (the resulting state is `s1` again). -/
theorem c1_invalid_target_stalls (env : Env) (s : ControlPipe)
    (h6 : s.textInfos.length < 6) (r1 : Response) (s1 : ControlPipe)
    (hset : processRequest env "SET,TEXTINFO_TARGET,5" s = .ok (r1, s1)) :
    ∀ m ∈ (["GET,RGB", "GET,TEXT", "GET,XY", "SET,RGB,1,2,3", "SET,TEXT,x",
            "SET,XY,4,5"] : List String),
      processRequest env m s1 = .ok (Response.mk "TextInfoTargetInvalid" [], s1) := by
  have hset' : processRequest env "SET,TEXTINFO_TARGET,5" s =
      .ok (Response.mk "OK" [],
        { (getTextInfoTarget s).2 with textInfoTarget := some 5 }) := by
    unfold processRequest
    rw [show split "SET,TEXTINFO_TARGET,5" ',' = ["SET", "TEXTINFO_TARGET", "5"] from
      by decide]
    dsimp only
    rw [dispatchReq_set_target env "5" _ _ 5 (by decide)]
  rw [hset'] at hset
  have hpair : (Response.mk "OK" [],
      ({ (getTextInfoTarget s).2 with textInfoTarget := some 5 } : ControlPipe)) =
      (r1, s1) := Except.ok.inj hset
  have hs1 : s1 = { (getTextInfoTarget s).2 with textInfoTarget := some 5 } :=
    (congrArg Prod.snd hpair).symm
  subst hs1
  have hne : ({ (getTextInfoTarget s).2 with textInfoTarget := some 5 } :
      ControlPipe).textInfos ≠ [] := getTextInfoTarget_snd_ne_nil s
  have hlen : ({ (getTextInfoTarget s).2 with textInfoTarget := some 5 } :
      ControlPipe).textInfos.length ≤ 5 := by
    show (getTextInfoTarget s).2.textInfos.length ≤ 5
    rw [getTextInfoTarget_snd]
    split
    · next hem =>
      rw [List.isEmpty_iff.mp hem]
      simp
    · next hem =>
      show s.textInfos.length ≤ 5
      omega
  exact processRequest_target_invalid env _ hne hlen rfl

/-- C1 witness: the property evaluated at the startup state with the request
`GET,RGB` following `SET,TEXTINFO_TARGET,5`. -/
theorem c1_witness :
    processRequest env0 "GET,RGB"
      { initState with textInfos := [defaultTextInfo], textInfoTarget := some 5 } =
      .ok (Response.mk "TextInfoTargetInvalid" [],
        { initState with textInfos := [defaultTextInfo], textInfoTarget := some 5 }) :=
  c1_invalid_target_stalls env0 initState (by decide) (Response.mk "OK" []) _
    (by decide) "GET,RGB" (by decide)

/-- C6: a freshly constructed `Response` has the generic bad-command status
and no fields; `addField` appends the field to the ordered field list and as a
side effect sets the status to OK; and serialization produces exactly the
status, one comma, each field in order each followed by one comma, and a
single newline, with fields embedded verbatim (no escaping). -/
theorem c6_response_builder :
    Response.new.status = "BadCommand" ∧ Response.new.fields = [] ∧
    (∀ (r : Response) (f : String),
      (r.addField f).fields = r.fields ++ [f] ∧ (r.addField f).status = "OK") ∧
    (∀ (st : String) (fs : List String),
      (Response.mk st fs).toString = st ++ "," ++ serializeFields fs ++ "\n") := by
  refine ⟨rfl, rfl, fun r f => ⟨rfl, rfl⟩, fun st fs => ?_⟩
  unfold Response.toString
  rw [foldl_serializeFields]

/-- C3: the claim says every malformed request line is converted into an
error response and no fault escapes `processRequest`.  The code instead reads
`lineSplit[1]` past the end of the token vector on `GET` alone (undefined
behaviour), reads `lineSplit[3]` past the end on `SET,RGB,255`, and lets the
`std::invalid_argument` thrown by `std::stoi("abc")` escape uncaught on
`SET,RGB,abc,0,0`; these evaluations exhibit the escaping faults. -/
theorem c3_malformed_requests_fault :
    processRequest env0 "GET" initState = .error .tokenOutOfRange ∧
    processRequest env0 "SET,RGB,255" initState = .error .tokenOutOfRange ∧
    processRequest env0 "SET,RGB,abc,0,0" initState = .error .invalidArgument := by
  refine ⟨by decide, by decide, by decide⟩

/-- C2 (amended): resolution first auto-appends one default label whenever the
store is empty, regardless of the target; the explicit-target branch itself
never appends.  Hence with the target unset, resolution returns the last
element (appending one default label to an empty store first), and with an
explicit target `i`, on a nonempty store it returns element `i` when `i` is in
bounds and fails otherwise with the store unchanged, while on an empty store
the auto-append still happens and the bounds check runs against the one-label
store, so `i = 0` succeeds and `i ≥ 1` fails. -/
theorem c2_resolution_characterization (s : ControlPipe) :
    (s.textInfoTarget = none → s.textInfos = [] →
      getTextInfoTarget s = (some 0, { s with textInfos := [defaultTextInfo] })) ∧
    (s.textInfoTarget = none → s.textInfos ≠ [] →
      getTextInfoTarget s = (some (s.textInfos.length - 1), s)) ∧
    (∀ i, s.textInfoTarget = some i → s.textInfos ≠ [] →
      getTextInfoTarget s =
        ((if i < s.textInfos.length then some i else none), s)) ∧
    (∀ i, s.textInfoTarget = some i → s.textInfos = [] →
      getTextInfoTarget s =
        ((if i = 0 then some 0 else none), { s with textInfos := [defaultTextInfo] })) := by
  have hemp_of_ne : ∀ (l : List TextInfo), l ≠ [] → l.isEmpty = false := by
    intro l hl
    cases l with
    | nil => exact absurd rfl hl
    | cons a t => rfl
  refine ⟨?_, ?_, ?_, ?_⟩
  · intro ht hs
    unfold getTextInfoTarget
    simp [hs, ht]
  · intro ht hs
    unfold getTextInfoTarget
    simp [hemp_of_ne _ hs, ht]
  · intro i ht hs
    unfold getTextInfoTarget
    simp only [hemp_of_ne _ hs, Bool.false_eq_true, if_false, ht]
    split <;> rfl
  · intro i ht hs
    unfold getTextInfoTarget
    simp only [hs, List.isEmpty_nil, if_true, List.nil_append, ht]
    by_cases hi : i = 0
    · subst hi
      simp
    · have : ¬ i < 1 := by omega
      simp [this, hi]

/-- C8 (amended): the verb token the code accepts is `NEW_TEXTINFO`, not
`NEW` (which falls through to the generic bad-command response and does not
run any append branch).  `NEW_TEXTINFO` appends exactly one default label —
channels 0,0,0, empty text, position (0,0) — so it increases the count by
exactly 1 from a nonempty store; from an empty store the count increases by 2,
because the unconditional target resolution auto-appends one default label
before the dispatch appends another. -/
theorem c8_new_appends_default (env : Env) (s : ControlPipe) :
    defaultTextInfo.red = 0 ∧ defaultTextInfo.green = 0 ∧ defaultTextInfo.blue = 0 ∧
    defaultTextInfo.text = "" ∧ defaultTextInfo.rectLeft = 0 ∧
    defaultTextInfo.rectTop = 0 ∧
    (s.textInfos ≠ [] →
      processRequest env "NEW_TEXTINFO" s =
        .ok (Response.mk "OK" [], { s with textInfos := s.textInfos ++ [defaultTextInfo] }) ∧
      (s.textInfos ++ [defaultTextInfo]).length = s.textInfos.length + 1) ∧
    (s.textInfos = [] →
      processRequest env "NEW_TEXTINFO" s =
        .ok (Response.mk "OK" [],
          { s with textInfos := [defaultTextInfo, defaultTextInfo] })) ∧
    processRequest env "NEW" s =
      .ok (Response.mk "BadCommand" [], (getTextInfoTarget s).2) := by
  refine ⟨rfl, rfl, rfl, rfl, rfl, rfl, fun hne => ⟨?_, by simp⟩, fun hemp => ?_, ?_⟩
  · unfold processRequest
    rw [show split "NEW_TEXTINFO" ',' = ["NEW_TEXTINFO"] from by decide]
    dsimp only
    rw [dispatchReq_new_textinfo env ["NEW_TEXTINFO"] _ _ rfl]
    dsimp only
    rw [getTextInfoTarget_nonempty_snd s hne]
  · unfold processRequest
    rw [show split "NEW_TEXTINFO" ',' = ["NEW_TEXTINFO"] from by decide]
    dsimp only
    rw [dispatchReq_new_textinfo env ["NEW_TEXTINFO"] _ _ rfl]
    dsimp only
    rw [getTextInfoTarget_snd_of_empty s hemp]
    rfl
  · unfold processRequest
    rw [show split "NEW" ',' = ["NEW"] from by decide]
    dsimp only
    rw [dispatchReq_unknown_new]

/-- C8 counterexample: on a one-label store, processing the request whose verb
is the exact token `NEW` answers the generic bad-command status and leaves the
label count at 1 instead of increasing it by 1. -/
theorem c8_counterexample :
    processRequest env0 "NEW" { initState with textInfos := [defaultTextInfo] } =
      .ok (Response.mk "BadCommand" [],
        { initState with textInfos := [defaultTextInfo] }) ∧
    ({ initState with textInfos := [defaultTextInfo] } : ControlPipe).textInfos.length
      = 1 := by
  refine ⟨by decide, by decide⟩

/-- C8 witness: `NEW_TEXTINFO` on a one-label store appends exactly one
default label. -/
theorem c8_witness :
    processRequest env0 "NEW_TEXTINFO" { initState with textInfos := [defaultTextInfo] } =
      .ok (Response.mk "OK" [],
        { initState with textInfos := [defaultTextInfo, defaultTextInfo] }) :=
  (((((((c8_new_appends_default env0
    { initState with textInfos := [defaultTextInfo] }).2).2).2).2).2).2).1
    (by decide) |>.1

/-- C2 counterexample: with the explicit target set to 0 and an empty store,
resolution appends a default label (the store grows from length 0 to length 1)
and succeeds, whereas the claim requires the explicit-target branch never to
append and to fail with the store unchanged when the index is out of the
(empty) store's bounds. -/
theorem c2_counterexample :
    getTextInfoTarget { initState with textInfoTarget := some 0 } =
      (some 0,
        { initState with textInfoTarget := some 0, textInfos := [defaultTextInfo] }) ∧
    ({ initState with textInfoTarget := some 0 } : ControlPipe).textInfos.length = 0 := by
  refine ⟨by decide, by decide⟩

/-- C2 witness: the amended characterization evaluated in the unset-target,
empty-store case at the startup state. -/
theorem c2_witness :
    getTextInfoTarget initState = (some 0, { initState with textInfos := [defaultTextInfo] }) :=
  (c2_resolution_characterization initState).1 rfl rfl

/-- C4 (amended): from every state, processing `CLEAR` leaves the label count
at 0; a subsequent `GET TEXTINFOCOUNT` request returns a response whose single
field is "1" — not "0" — because `processRequest` unconditionally resolves the
target first, which appends one default label to the now-empty store before
the count is read. -/
theorem c4_clear_then_count (env : Env) (s : ControlPipe) :
    processRequest env "CLEAR" s = .ok (Response.mk "OK" [], { s with textInfos := [] }) ∧
    processRequest env "GET,TEXTINFOCOUNT" { s with textInfos := [] } =
      .ok (Response.mk "OK" ["1"], { s with textInfos := [defaultTextInfo] }) := by
  constructor
  · unfold processRequest
    rw [show split "CLEAR" ',' = ["CLEAR"] from by decide]
    dsimp only
    rw [dispatchReq_clear env ["CLEAR"] _ _ rfl]
    dsimp only
    rw [getTextInfoTarget_snd]
    split <;> rfl
  · unfold processRequest
    rw [show split "GET,TEXTINFOCOUNT" ',' = ["GET", "TEXTINFOCOUNT"] from by decide]
    dsimp only
    rw [dispatchReq_count]
    dsimp only
    rw [getTextInfoTarget_snd_of_empty _ rfl]
    rfl

/-- C4 counterexample: from the startup state, `CLEAR` leaves the count at 0,
but the following `GET TEXTINFOCOUNT` answers "1", not "0", because the
unconditional target resolution appends one default label before the count is
read. -/
theorem c4_counterexample :
    processRequest env0 "CLEAR" initState = .ok (Response.mk "OK" [], initState) ∧
    processRequest env0 "GET,TEXTINFOCOUNT" initState =
      .ok (Response.mk "OK" ["1"], { initState with textInfos := [defaultTextInfo] }) := by
  refine ⟨by decide, by decide⟩

/-- C7: for a message identifier, `SET WIN_MSG,id,action` creates or
overwrites the mapping and answers OK; a following `SET WIN_MSG,id` with no
action token removes the mapping and answers OK; a further `SET WIN_MSG,id`
(the mapping now absent) answers the distinguished `MSG_NOT_FOUND` status,
which is distinct from both "OK" and the generic "BadCommand" status. -/
theorem c7_win_msg_lifecycle (env : Env) (s : ControlPipe) (id : Nat) (action : String)
    (hid : id < 2 ^ 31) (hact : ',' ∉ action.data) :
    ∃ s1 s2 s3,
      processRequest env ("SET,WIN_MSG," ++ natToStr id ++ "," ++ action) s =
        .ok (Response.mk "OK" [], s1) ∧
      mapFind s1.msgToAction id = some action ∧
      processRequest env ("SET,WIN_MSG," ++ natToStr id) s1 =
        .ok (Response.mk "OK" [], s2) ∧
      mapFind s2.msgToAction id = none ∧
      processRequest env ("SET,WIN_MSG," ++ natToStr id) s2 =
        .ok (Response.mk "MSG_NOT_FOUND" [], s3) ∧
      s3.msgToAction = s2.msgToAction ∧
      "MSG_NOT_FOUND" ≠ "OK" ∧ "MSG_NOT_FOUND" ≠ "BadCommand" := by
  have hstoi : stoi (natToStr id) = some (id : Int) := stoi_natToStr id hid
  have hkey : toUnsigned (id : Int) = id := toUnsigned_ofNat id (by omega)
  have h1 : processRequest env ("SET,WIN_MSG," ++ natToStr id ++ "," ++ action) s =
      .ok (Response.mk "OK" [],
        { (getTextInfoTarget s).2 with
          msgToAction := mapInsert s.msgToAction id action }) := by
    unfold processRequest
    rw [split_set_winmsg_three (natToStr id) action (comma_not_mem_natToStr id) hact]
    dsimp only
    rw [dispatchReq_winmsg_upsert env (natToStr id) action _ _ _ hstoi]
    dsimp only
    rw [hkey, (getTextInfoTarget_snd_fields s).2.1]
  have hne1 : ({ (getTextInfoTarget s).2 with
      msgToAction := mapInsert s.msgToAction id action } : ControlPipe).textInfos ≠ [] :=
    getTextInfoTarget_snd_ne_nil s
  have hfind1 : mapFind ({ (getTextInfoTarget s).2 with
      msgToAction := mapInsert s.msgToAction id action } : ControlPipe).msgToAction id =
      some action := mapFind_mapInsert_self _ _ _
  have h2 : processRequest env ("SET,WIN_MSG," ++ natToStr id)
      { (getTextInfoTarget s).2 with
        msgToAction := mapInsert s.msgToAction id action } =
      .ok (Response.mk "OK" [],
        { (getTextInfoTarget s).2 with
          msgToAction := mapErase (mapInsert s.msgToAction id action) id }) := by
    unfold processRequest
    rw [split_set_winmsg_two (natToStr id) (comma_not_mem_natToStr id)]
    dsimp only
    rw [getTextInfoTarget_nonempty_snd _ hne1]
    rw [dispatchReq_winmsg_remove_found env (natToStr id) _ _ (id : Int) action hstoi
      (by rw [hkey]; exact hfind1)]
    dsimp only
    rw [hkey]
  have hne2 : ({ (getTextInfoTarget s).2 with
      msgToAction := mapErase (mapInsert s.msgToAction id action) id } :
      ControlPipe).textInfos ≠ [] := getTextInfoTarget_snd_ne_nil s
  have hfind2 : mapFind ({ (getTextInfoTarget s).2 with
      msgToAction := mapErase (mapInsert s.msgToAction id action) id } :
      ControlPipe).msgToAction id = none := mapFind_mapErase_self _ _
  have h3 : processRequest env ("SET,WIN_MSG," ++ natToStr id)
      { (getTextInfoTarget s).2 with
        msgToAction := mapErase (mapInsert s.msgToAction id action) id } =
      .ok (Response.mk "MSG_NOT_FOUND" [],
        { (getTextInfoTarget s).2 with
          msgToAction := mapErase (mapInsert s.msgToAction id action) id }) := by
    unfold processRequest
    rw [split_set_winmsg_two (natToStr id) (comma_not_mem_natToStr id)]
    dsimp only
    rw [getTextInfoTarget_nonempty_snd _ hne2]
    rw [dispatchReq_winmsg_remove_missing env (natToStr id) _ _ (id : Int) hstoi
      (by rw [hkey]; exact hfind2)]
  exact ⟨_, _, _, h1, hfind1, h2, hfind2, h3, rfl, by decide, by decide⟩

/-- C7 witness: the lifecycle evaluated at the startup state with identifier
100 and the action string "notepad.exe". -/
theorem c7_witness :
    ∃ s1 s2 s3,
      processRequest env0 ("SET,WIN_MSG," ++ natToStr 100 ++ "," ++ "notepad.exe")
        initState = .ok (Response.mk "OK" [], s1) ∧
      mapFind s1.msgToAction 100 = some "notepad.exe" ∧
      processRequest env0 ("SET,WIN_MSG," ++ natToStr 100) s1 =
        .ok (Response.mk "OK" [], s2) ∧
      mapFind s2.msgToAction 100 = none ∧
      processRequest env0 ("SET,WIN_MSG," ++ natToStr 100) s2 =
        .ok (Response.mk "MSG_NOT_FOUND" [], s3) ∧
      s3.msgToAction = s2.msgToAction ∧
      "MSG_NOT_FOUND" ≠ "OK" ∧ "MSG_NOT_FOUND" ≠ "BadCommand" :=
  c7_win_msg_lifecycle env0 initState 100 "notepad.exe" (by decide) (by decide)

theorem dispatchReq_set_rgb (env : Env) (t2 t3 t4 : String) (i : Nat) (s : ControlPipe)
    (v2 v3 v4 : Int) (h2 : stoi t2 = some v2) (h3 : stoi t3 = some v3)
    (h4 : stoi t4 = some v4) :
    dispatchReq env ["SET", "RGB", t2, t3, t4] (some i) s =
      .ok (Response.mk "OK" [],
        updateTI (updateTI (updateTI s i (fun ti => { ti with red := toUnsigned v2 }))
          i (fun ti => { ti with green := toUnsigned v3 }))
          i (fun ti => { ti with blue := toUnsigned v4 })) := by
  unfold dispatchReq dispatchSet tok stoiE verifyTextInfo
  simp [h2, h3, h4, Response.new, Response.setOk]

theorem dispatchReq_get_rgb (env : Env) (i : Nat) (s : ControlPipe) :
    dispatchReq env ["GET", "RGB"] (some i) s =
      .ok (Response.mk "OK" [natToStr (readTI s i).red, natToStr (readTI s i).green,
        natToStr (readTI s i).blue], s) := by
  unfold dispatchReq dispatchGet tok verifyTextInfo
  simp [Response.new, Response.addField]

/-- C5: for every in-bounds index i and numeric channel values r, g, b, the
sequence `SET TEXTINFO_TARGET,i`, `SET RGB,r,g,b`, `GET RGB` ends with a
response whose three fields are exactly the numerals r, g and b as sent. -/
theorem c5_rgb_roundtrip (env : Env) (s : ControlPipe) (i r g b : Nat)
    (hi : i < s.textInfos.length) (hi64 : i < 2 ^ 64)
    (hr : r < 2 ^ 31) (hg : g < 2 ^ 31) (hb : b < 2 ^ 31) :
    ∃ s1 s2 s3,
      processRequest env ("SET,TEXTINFO_TARGET," ++ natToStr i) s =
        .ok (Response.mk "OK" [], s1) ∧
      processRequest env
        ("SET,RGB," ++ natToStr r ++ "," ++ natToStr g ++ "," ++ natToStr b) s1 =
        .ok (Response.mk "OK" [], s2) ∧
      processRequest env "GET,RGB" s2 =
        .ok (Response.mk "OK" [natToStr r, natToStr g, natToStr b], s3) := by
  have hne : s.textInfos ≠ [] := by
    intro hc
    rw [hc] at hi
    simp at hi
  have h1 : processRequest env ("SET,TEXTINFO_TARGET," ++ natToStr i) s =
      .ok (Response.mk "OK" [], { s with textInfoTarget := some i }) := by
    unfold processRequest
    rw [split_set_target_tok (natToStr i) (comma_not_mem_natToStr i)]
    dsimp only
    rw [dispatchReq_set_target env (natToStr i) _ _ i (stoull_natToStr i hi64)]
    dsimp only
    rw [getTextInfoTarget_nonempty_snd s hne]
  have hfst1 : (getTextInfoTarget { s with textInfoTarget := some i }).1 = some i := by
    rw [getTextInfoTarget_nonempty_fst_some { s with textInfoTarget := some i } i hne rfl]
    exact if_pos hi
  have h2 : processRequest env
      ("SET,RGB," ++ natToStr r ++ "," ++ natToStr g ++ "," ++ natToStr b)
      { s with textInfoTarget := some i } =
      .ok (Response.mk "OK" [],
        updateTI (updateTI (updateTI { s with textInfoTarget := some i } i
            (fun ti => { ti with red := r }))
          i (fun ti => { ti with green := g }))
          i (fun ti => { ti with blue := b })) := by
    unfold processRequest
    rw [split_set_rgb_vals (natToStr r) (natToStr g) (natToStr b)
      (comma_not_mem_natToStr r) (comma_not_mem_natToStr g) (comma_not_mem_natToStr b)]
    dsimp only
    rw [getTextInfoTarget_nonempty_snd { s with textInfoTarget := some i } hne, hfst1]
    rw [dispatchReq_set_rgb env _ _ _ i _ _ _ _
      (stoi_natToStr r hr) (stoi_natToStr g hg) (stoi_natToStr b hb)]
    rw [toUnsigned_ofNat r (by omega), toUnsigned_ofNat g (by omega),
      toUnsigned_ofNat b (by omega)]
  have hlenS2 : (updateTI (updateTI (updateTI { s with textInfoTarget := some i } i
        (fun ti => { ti with red := r }))
      i (fun ti => { ti with green := g }))
      i (fun ti => { ti with blue := b })).textInfos.length = s.textInfos.length := by
    rw [updateTI_length, updateTI_length, updateTI_length]
  have hne2 : (updateTI (updateTI (updateTI { s with textInfoTarget := some i } i
        (fun ti => { ti with red := r }))
      i (fun ti => { ti with green := g }))
      i (fun ti => { ti with blue := b })).textInfos ≠ [] := by
    intro hc
    rw [hc] at hlenS2
    simp at hlenS2
    omega
  have htgt2 : (updateTI (updateTI (updateTI { s with textInfoTarget := some i } i
        (fun ti => { ti with red := r }))
      i (fun ti => { ti with green := g }))
      i (fun ti => { ti with blue := b })).textInfoTarget = some i := by
    rw [(updateTI_fields _ _ _).1, (updateTI_fields _ _ _).1, (updateTI_fields _ _ _).1]
  have hfst2 : (getTextInfoTarget (updateTI (updateTI (updateTI
        { s with textInfoTarget := some i } i (fun ti => { ti with red := r }))
      i (fun ti => { ti with green := g }))
      i (fun ti => { ti with blue := b }))).1 = some i := by
    rw [getTextInfoTarget_nonempty_fst_some _ i hne2 htgt2]
    exact if_pos (by omega)
  have hread : (readTI (updateTI (updateTI (updateTI
        { s with textInfoTarget := some i } i (fun ti => { ti with red := r }))
      i (fun ti => { ti with green := g }))
      i (fun ti => { ti with blue := b })) i).red = r ∧
      (readTI (updateTI (updateTI (updateTI
        { s with textInfoTarget := some i } i (fun ti => { ti with red := r }))
      i (fun ti => { ti with green := g }))
      i (fun ti => { ti with blue := b })) i).green = g ∧
      (readTI (updateTI (updateTI (updateTI
        { s with textInfoTarget := some i } i (fun ti => { ti with red := r }))
      i (fun ti => { ti with green := g }))
      i (fun ti => { ti with blue := b })) i).blue = b := by
    have hb1 : i < (updateTI { s with textInfoTarget := some i } i
        (fun ti => { ti with red := r })).textInfos.length := by
      rw [updateTI_length]
      exact hi
    have hb2 : i < (updateTI (updateTI { s with textInfoTarget := some i } i
          (fun ti => { ti with red := r }))
        i (fun ti => { ti with green := g })).textInfos.length := by
      rw [updateTI_length, updateTI_length]
      exact hi
    have hb0 : i < ({ s with textInfoTarget := some i } :
        ControlPipe).textInfos.length := hi
    rw [readTI_updateTI_self _ _ _ hb2, readTI_updateTI_self _ _ _ hb1,
      readTI_updateTI_self _ _ _ hb0]
    exact ⟨rfl, rfl, rfl⟩
  have h3 : processRequest env "GET,RGB" (updateTI (updateTI (updateTI
        { s with textInfoTarget := some i } i (fun ti => { ti with red := r }))
      i (fun ti => { ti with green := g }))
      i (fun ti => { ti with blue := b })) =
      .ok (Response.mk "OK" [natToStr r, natToStr g, natToStr b],
        updateTI (updateTI (updateTI { s with textInfoTarget := some i } i
            (fun ti => { ti with red := r }))
          i (fun ti => { ti with green := g }))
          i (fun ti => { ti with blue := b })) := by
    unfold processRequest
    rw [show split "GET,RGB" ',' = ["GET", "RGB"] from by decide]
    dsimp only
    rw [getTextInfoTarget_nonempty_snd _ hne2, hfst2]
    rw [dispatchReq_get_rgb env i _]
    rw [hread.1, hread.2.1, hread.2.2]
  exact ⟨_, _, _, h1, h2, h3⟩

/-- C5 witness: the roundtrip evaluated on a one-label store at index 0 with
channel values 255, 0, 0. -/
theorem c5_witness :
    ∃ s1 s2 s3,
      processRequest env0 ("SET,TEXTINFO_TARGET," ++ natToStr 0)
        { initState with textInfos := [defaultTextInfo] } =
        .ok (Response.mk "OK" [], s1) ∧
      processRequest env0
        ("SET,RGB," ++ natToStr 255 ++ "," ++ natToStr 0 ++ "," ++ natToStr 0) s1 =
        .ok (Response.mk "OK" [], s2) ∧
      processRequest env0 "GET,RGB" s2 =
        .ok (Response.mk "OK" [natToStr 255, natToStr 0, natToStr 0], s3) :=
  c5_rgb_roundtrip env0 { initState with textInfos := [defaultTextInfo] } 0 255 0 0
    (by decide) (by decide) (by decide) (by decide) (by decide)

theorem updateTI_textInfos_eq_nil (s : ControlPipe) (i : Nat) (f : TextInfo → TextInfo) :
    (updateTI s i f).textInfos = [] ↔ s.textInfos = [] := by
  constructor
  · intro h
    have := updateTI_length s i f
    rw [h] at this
    exact List.length_eq_zero.mp this.symm
  · intro h
    unfold updateTI
    rw [h]
    simp only [List.getElem?_nil]
    exact h

set_option maxHeartbeats 1000000 in
theorem dispatchGet_ok_state (env : Env) (ls : List String) (tgt : Option Nat)
    (s : ControlPipe) (r : Response) (s' : ControlPipe)
    (hok : dispatchGet env ls tgt s = .ok (r, s')) : s' = s := by
  unfold dispatchGet at hok
  repeat'
    first
      | split at hok
      | (dsimp only at hok; split at hok)
  all_goals try dsimp only at hok
  all_goals first
    | exact Except.noConfusion hok
    | (injection hok with hx
       injection hx with hr hs
       exact hs.symm)

set_option maxHeartbeats 1000000 in
theorem dispatchSet_ok_length (env : Env) (ls : List String) (tgt : Option Nat)
    (s : ControlPipe) (r : Response) (s' : ControlPipe)
    (hok : dispatchSet env ls tgt s = .ok (r, s')) :
    s'.textInfos.length = s.textInfos.length := by
  unfold dispatchSet at hok
  repeat'
    first
      | split at hok
      | (dsimp only at hok; split at hok)
  all_goals try dsimp only at hok
  all_goals first
    | exact Except.noConfusion hok
    | (injection hok with hx
       injection hx with hr hs
       rw [← hs]
       try simp [updateTI_length]
       done)

set_option maxHeartbeats 1000000 in
theorem dispatchReq_ok_ne_nil (env : Env) (ls : List String) (tgt : Option Nat)
    (s : ControlPipe) (hne : s.textInfos ≠ []) (r : Response) (s' : ControlPipe)
    (hok : dispatchReq env ls tgt s = .ok (r, s'))
    (hv : ¬ ls[0]? = some "CLEAR") : s'.textInfos ≠ [] := by
  cases ls with
  | nil =>
    unfold dispatchReq at hok
    simp only [List.getElem?_nil] at hok
    simp only [Except.ok.injEq, Prod.mk.injEq] at hok
    rw [← hok.2]
    exact hne
  | cons v lr =>
    unfold dispatchReq at hok
    simp only [List.getElem?_cons_zero] at hok
    have hv2 : ¬ v = "CLEAR" := fun hc => hv (by rw [hc, List.getElem?_cons_zero])
    repeat'
      first
        | split at hok
        | (dsimp only at hok; split at hok)
    all_goals try dsimp only at hok
    all_goals first
      | exact Except.noConfusion hok
      | exact absurd (by assumption) hv2
      | (rw [dispatchGet_ok_state env (v :: lr) tgt s r s' hok]
         exact hne)
      | (have hl := dispatchSet_ok_length env (v :: lr) tgt s r s' hok
         intro hc
         rw [hc] at hl
         exact hne (List.length_eq_zero.mp hl.symm))
      | (injection hok with hx
         injection hx with hr hs
         rw [← hs]
         first
           | exact hne
           | simp [updateTI_textInfos_eq_nil, hne])

/-- C10: `processRequest` resolves the active-label target before examining
the verb, so processing any request whatsoever from an empty store first
appends one default label (the state handed to dispatch is the one-label
store), and when `processRequest` returns a response, the store is non-empty
afterwards if and only if the request's verb — the first comma-separated
token — was not the exact token `CLEAR`. -/
theorem c10_resolution_before_dispatch (env : Env) (msg : String) (s : ControlPipe)
    (hemp : s.textInfos = []) :
    (getTextInfoTarget s).2 = { s with textInfos := [defaultTextInfo] } ∧
    (∀ resp s', processRequest env msg s = .ok (resp, s') →
      (s'.textInfos = [] ↔ (split msg ',')[0]? = some "CLEAR")) := by
  refine ⟨getTextInfoTarget_snd_of_empty s hemp, ?_⟩
  intro resp s' hok
  unfold processRequest at hok
  dsimp only at hok
  cases hd : dispatchReq env (split msg ',') (getTextInfoTarget s).1
      (getTextInfoTarget s).2 with
  | ok x =>
    obtain ⟨xr, xs⟩ := x
    rw [hd] at hok
    dsimp only at hok
    injection hok with hx
    injection hx with hr hs
    rw [hr, hs] at hd
    constructor
    · intro hnil
      by_cases hv : (split msg ',')[0]? = some "CLEAR"
      · exact hv
      · exact absurd hnil
          (dispatchReq_ok_ne_nil env (split msg ',') (getTextInfoTarget s).1
            (getTextInfoTarget s).2 (getTextInfoTarget_snd_ne_nil s) resp s' hd hv)
    · intro hv
      rw [dispatchReq_clear env (split msg ',') (getTextInfoTarget s).1
        (getTextInfoTarget s).2 hv] at hd
      injection hd with hx2
      injection hx2 with hr2 hs2
      rw [← hs2]
  | error e =>
    cases e with
    | fault f =>
      rw [hd] at hok
      dsimp only at hok
      exact Except.noConfusion hok
    | textInfoNull =>
      rw [hd] at hok
      dsimp only at hok
      injection hok with hx
      injection hx with hr hs
      constructor
      · intro hnil
        rw [← hs] at hnil
        exact absurd hnil (getTextInfoTarget_snd_ne_nil s)
      · intro hv
        rw [dispatchReq_clear env (split msg ',') (getTextInfoTarget s).1
          (getTextInfoTarget s).2 hv] at hd
        exact Except.noConfusion hd

/-- C10 witness: a `PAINT` request processed from the startup state leaves a
non-empty store, matching the resolution characterization. -/
theorem c10_witness :
    (({ initState with textInfos := [defaultTextInfo] } : ControlPipe).textInfos = [] ↔
      (split "PAINT" ',')[0]? = some "CLEAR") :=
  (c10_resolution_before_dispatch env0 "PAINT" initState rfl).2
    (Response.mk "OK" []) { initState with textInfos := [defaultTextInfo] } (by decide)
